import Mathlib

/-
Verification development for the wasmedge-based runtime executor
(client/executor/wasmedge): ABI value marshalling, the packed 64-bit
result of a call, trap/panic error construction, dispatch-target
resolution, import resolution, fast-instance-reuse state restore,
linear-memory byte-length computation, and the sandbox memory API.

The repository contains two historical copies of the executor crate:
  * substrate/client/executor/wasmedge/src (newer: i32/i64 entry ABI), and
  * client/executor/wasmedge/src (older: f32/f64-cast entry ABI).
Definitions below embed the newer copy unless their name or doc comment
says `client_`, in which case they embed the older copy.

Machine integers are modelled as Nat/Int with explicit `% 2^w` where
overflow matters.  Rust floats never carry interesting bit-level state
on the verified paths: every float that occurs is produced by a numeric
cast from an integer, so f32/f64 values are modelled by their exact
(nonnegative integer) numeric value, and the numeric casts themselves
are modelled exactly with integer arithmetic (round-to-nearest-even for
int-to-float, truncate-and-saturate for float-to-int).
-/

namespace SW

/-- Fueled bit-length helper: number of binary digits of `n`, assuming
`n < 2 ^ fuel`.  Structural recursion on the fuel keeps kernel reduction
available for concrete evaluation. -/
def bitLenAux : Nat → Nat → Nat
  | 0, _ => 0
  | fuel + 1, n => if n = 0 then 0 else bitLenAux fuel (n / 2) + 1

/-- Number of binary digits of `n` (64 bits of fuel suffice for every
machine integer appearing in this development). -/
def bitLen (n : Nat) : Nat := bitLenAux 64 n

/-- Model of the Rust numeric cast from an unsigned integer to a binary
float with `sigBits` significand bits (24 for f32, 53 for f64):
round to nearest, ties to even.  The result of rounding an integer is
again an integer, so the model returns a `Nat`. -/
def float_round (sigBits n : Nat) : Nat :=
  if n ≤ 2 ^ sigBits then n
  else
    let k := bitLen n - sigBits
    let q := n / 2 ^ k
    let r := n % 2 ^ k
    let half := 2 ^ (k - 1)
    if r < half then q * 2 ^ k
    else if half < r then (q + 1) * 2 ^ k
    else if q % 2 = 0 then q * 2 ^ k else (q + 1) * 2 ^ k

/-- Model of the Rust cast `u32 as f32` (util.rs `f_bits as f32`). -/
def u32_as_f32 (n : Nat) : Nat := float_round 24 n

/-- Model of the Rust cast `u64 as f64` (util.rs `f_bits as f64`). -/
def u64_as_f64 (n : Nat) : Nat := float_round 53 n

/-- Model of the Rust cast `f32 as u32` (util.rs `v as u32`) restricted
to the nonnegative integer-valued floats occurring on the verified
paths: truncation is the identity there, and the cast saturates at
`u32::MAX`. -/
def f32_value_as_u32 (x : Nat) : Nat := min x (2 ^ 32 - 1)

/-- Model of the Rust cast `f64 as u64` (util.rs `v as u64`) restricted
to nonnegative integer-valued floats, saturating at `u64::MAX`. -/
def f64_value_as_u64 (x : Nat) : Nat := min x (2 ^ 64 - 1)

/-- Model of `WasmValue::to_i64`: reinterpret the 64 raw bits of a wasm
value as a two's-complement signed integer. -/
def wasm_to_i64 (bits : Nat) : Int :=
  if bits % 2 ^ 64 < 2 ^ 63 then (bits % 2 ^ 64 : Int)
  else (bits % 2 ^ 64 : Int) - 2 ^ 64

/-- Model of the Rust cast `i64 as u64`: two's-complement
reinterpretation back to an unsigned 64-bit integer. -/
def i64_as_u64 (v : Int) : Nat := (v % 2 ^ 64).toNat

/-- Model of the Rust cast `u32 as i32` (instance_wrapper.rs
`u32::from(data_ptr) as i32`): two's-complement reinterpretation. -/
def u32_as_i32 (n : Nat) : Int :=
  if n % 2 ^ 32 < 2 ^ 31 then (n % 2 ^ 32 : Int)
  else (n % 2 ^ 32 : Int) - 2 ^ 32

/-- Model of `WasmValue::to_f64` followed by the Rust cast `as u64`
(client instance_wrapper.rs line 148, `res[0].to_f64() as u64`): the 64
raw bits are decoded as an IEEE-754 double and the resulting value is
truncated toward zero, saturating at the `u64` range (negative values
and NaN go to 0, values at or above `2^64` go to `u64::MAX`).  All
cases are exact integer arithmetic on the sign / exponent / mantissa
fields. -/
def f64_bits_as_u64 (bits : Nat) : Nat :=
  let sign := bits / 2 ^ 63 % 2
  let expF := bits / 2 ^ 52 % 2 ^ 11
  let mant := bits % 2 ^ 52
  if sign = 1 then 0
  else if expF = 2047 then (if mant = 0 then 2 ^ 64 - 1 else 0)
  else if expF = 0 then 0
  else if 1075 ≤ expF then min ((2 ^ 52 + mant) * 2 ^ (expF - 1075)) (2 ^ 64 - 1)
  else (2 ^ 52 + mant) / 2 ^ (1075 - expF)

/-- Model of `res[0].to_i64() as u64` (substrate instance_wrapper.rs
line 153): how the newer copy captures the packed 64-bit result of a
completed guest call from the raw result bits. -/
def capture_result (bits : Nat) : Nat := i64_as_u64 (wasm_to_i64 bits)

/-- Model of `res[0].to_f64() as u64` (client instance_wrapper.rs line
148): how the older copy captures the packed 64-bit result. -/
def client_capture_result (bits : Nat) : Nat := f64_bits_as_u64 bits

/-- Modelled from the spec: `sp_runtime_interface::pack_ptr_and_len`
is code of this repository that is not under src/.  The guest packs
(pointer, length) into one 64-bit value with the length in the upper
32 bits and the pointer in the lower 32 bits. -/
def pack_ptr_and_len (ptr len : Nat) : Nat :=
  (len % 2 ^ 32) * 2 ^ 32 + ptr % 2 ^ 32

/-- Modelled from the spec: `sp_runtime_interface::unpack_ptr_and_len`
is code of this repository that is not under src/.  The packed 64-bit
result is split into (pointer, length) with the same fixed order used
by `pack_ptr_and_len`: pointer from the lower half, length from the
upper half. -/
def unpack_ptr_and_len (v : Nat) : Nat × Nat :=
  (v % 2 ^ 32, v / 2 ^ 32 % 2 ^ 32)

/-- The four-variant ABI value union `sp_wasm_interface::Value`:
32/64-bit integers and 32/64-bit float *bit patterns*. -/
inductive Value where
  | I32 (v : Int)
  | I64 (v : Int)
  | F32 (bits : Nat)
  | F64 (bits : Nat)
deriving DecidableEq

/-- Engine-side value `wasmedge_sdk::types::Val` (also standing for the
sys-level `WasmValue`, which the source converts with the identical
casts).  Float variants hold the float's numeric value (see the module
header); `FuncRef` stands for the non-numeric variants that the
substrate conversions reject. -/
inductive Val where
  | I32 (v : Int)
  | I64 (v : Int)
  | F32 (v : Nat)
  | F64 (v : Nat)
  | FuncRef (r : Option Nat)
deriving DecidableEq

/-- Embedding of `from_wasmedge_val` (substrate util.rs lines 11-19;
the sys-level `from_wasmedge_value`, lines 35-43, performs the same
casts): `Val::F32(v) => Value::F32(v as u32)`, `Val::F64(v) =>
Value::F64(v as u64)`; non-numeric values panic, modelled as `none`. -/
def from_wasmedge_val : Val → Option Value
  | .I32 v => some (.I32 v)
  | .I64 v => some (.I64 v)
  | .F32 v => some (.F32 (f32_value_as_u32 v))
  | .F64 v => some (.F64 (f64_value_as_u64 v))
  | .FuncRef _ => none

/-- Embedding of `into_wasmedge_val` (substrate util.rs lines 23-30;
likewise `into_wasmedge_value`, lines 47-54): `Value::F32(f_bits) =>
Val::F32(f_bits as f32)`, `Value::F64(f_bits) => Val::F64(f_bits as
f64)` — numeric casts of the bit pattern, not bit reinterpretation. -/
def into_wasmedge_val : Value → Val
  | .I32 v => .I32 v
  | .I64 v => .I64 v
  | .F32 f_bits => .F32 (u32_as_f32 f_bits)
  | .F64 f_bits => .F64 (u64_as_f64 f_bits)

/-- Wasm value types (`wasmedge_types::ValType`); `FuncRef` and `V128`
stand for the non-numeric types so that "exact" signature comparison is
meaningful. -/
inductive ValType where
  | I32
  | I64
  | F32
  | F64
  | FuncRef
  | V128
deriving DecidableEq

/-- Function type: parameter and result lists (`wasmedge_types::FuncType`,
read off via `args()` / `returns()` in the source). -/
structure FuncType where
  params : List ValType
  returns : List ValType
deriving DecidableEq

/-- A callable function resolved from an export or a table slot: all the
dispatch code inspects is its type (plus identity, kept as an id so that
distinct functions stay distinct). -/
structure FuncEntry where
  id : Nat
  ty : FuncType
deriving DecidableEq

/-- The slice of a live wasmedge instance that `InstanceWrapper::call`
consults: named exported functions and the optional
`__indirect_function_table`.  A table slot holds `Val::FuncRef(Option)`;
the model keeps the inner `Option FuncEntry` directly. -/
structure GuestInstance where
  exports : String → Option FuncEntry
  indirect_function_table : Option (List (Option FuncEntry))

/-- The three dispatch shapes of
`sc_executor_common::wasm_runtime::InvokeMethod`. -/
inductive InvokeMethod where
  | Export (method : String)
  | Table (func : Nat)
  | TableWithWrapper (dispatcher_ref : Nat) (func : Nat)

/-- Execution-error taxonomy used by `InstanceWrapper::call`
(`sc_executor_common::error::Error`); messages and backtraces are lists
of characters so that the backtrace-stripping string surgery can be
modelled exactly. -/
inductive ExecError where
  | Other (msg : List Char)
  | NoTable
  | NoTableEntryWithIndex (idx : Nat)
  | FunctionRefIsNull (idx : Nat)
  | AbortedDueToPanic (message : List Char) (backtrace : List Char)
  | AbortedDueToTrap (message : List Char) (backtrace : List Char)
deriving DecidableEq

/-- The marker the trap handler searches for:
`let suffix = "\nwasm backtrace:";` (substrate instance_wrapper.rs line
132, client line 127). -/
def wasm_backtrace_marker : List Char := "\nwasm backtrace:".toList

/-- Boolean prefix test on character lists (model of `str::find`
matching at the current position). -/
def leadsWith : List Char → List Char → Bool
  | [], _ => true
  | _ :: _, [] => false
  | a :: as, b :: bs => a = b && leadsWith as bs

/-- Model of `backtrace_string.find(suffix)` followed by
`replace_range(0..index + suffix.len(), "")` (substrate
instance_wrapper.rs lines 131-137): if the marker occurs, return the
text after its first occurrence; otherwise the string is left alone
(`none`). -/
def findAfterMarker (marker : List Char) : List Char → Option (List Char)
  | [] => none
  | c :: rest =>
    if leadsWith marker (c :: rest) then some ((c :: rest).drop marker.length)
    else findAfterMarker marker rest

/-- The backtrace string stored in the error: the trap text with
everything up to and including the first `"\nwasm backtrace:"` marker
stripped, or the whole trap text when the marker is absent. -/
def stripped_backtrace (trap : List Char) : List Char :=
  (findAfterMarker wasm_backtrace_marker trap).getD trap

/-- Embedding of the `map_err(|trap| ...)` closure of
`InstanceWrapper::call` (substrate instance_wrapper.rs lines 126-151):
build the stripped backtrace, then return `AbortedDueToPanic` with the
recorded panic message if `host_state.take_panic_message()` yields one,
else `AbortedDueToTrap` with the trap's own message. -/
def trap_to_error (trap : List Char) (panic_message : Option (List Char)) : ExecError :=
  let backtrace_string := stripped_backtrace trap
  match panic_message with
  | some error => .AbortedDueToPanic error backtrace_string
  | none => .AbortedDueToTrap trap backtrace_string

/-- The exact entry-point type demanded by `check_signature1` and
`check_signature2` (substrate instance_wrapper.rs lines 298-324): two
32-bit integer parameters, one 64-bit integer result. -/
def entry_point_signature : FuncType := ⟨[.I32, .I32], [.I64]⟩

/-- The three-argument type demanded by `check_signature3` (substrate
instance_wrapper.rs lines 326-338). -/
def wrapper_signature : FuncType := ⟨[.I32, .I32, .I32], [.I64]⟩

/-- Message of the signature-mismatch error shared by the three checks. -/
def invalid_signature_msg : List Char := "Invalid signature for direct entry point".toList

/-- Embedding of `check_signature1` (substrate instance_wrapper.rs lines
298-310): error unless the type equals the entry-point ABI exactly. -/
def check_signature1 (ty : FuncType) : Except ExecError Unit :=
  if ty.params ≠ [.I32, .I32] ∨ ty.returns ≠ [.I64] then .error (.Other invalid_signature_msg)
  else .ok ()

/-- Embedding of `check_signature2` (substrate instance_wrapper.rs lines
312-324), textually the same check as `check_signature1`. -/
def check_signature2 (ty : FuncType) : Except ExecError Unit :=
  if ty.params ≠ [.I32, .I32] ∨ ty.returns ≠ [.I64] then .error (.Other invalid_signature_msg)
  else .ok ()

/-- Embedding of `check_signature3` (substrate instance_wrapper.rs lines
326-338): three 32-bit integer parameters, one 64-bit result. -/
def check_signature3 (ty : FuncType) : Except ExecError Unit :=
  if ty.params ≠ [.I32, .I32, .I32] ∨ ty.returns ≠ [.I64] then .error (.Other invalid_signature_msg)
  else .ok ()

/-- A resolved dispatch: which function is about to be invoked and with
which argument values (`func.call(&mut self.executor, vec![...])`). -/
structure Invocation where
  entry : FuncEntry
  args : List Val
deriving DecidableEq

/-- Embedding of the dispatch `match method` of `InstanceWrapper::call`
(substrate instance_wrapper.rs lines 77-125): resolve the target
(export lookup / table lookup with `NoTable`, `NoTableEntryWithIndex`,
`FunctionRefIsNull` errors), check its signature, and produce the
invocation `func.call` receives.  An `error` result means no function
is invoked. -/
def dispatch (inst : GuestInstance) (method : InvokeMethod) (data_ptr data_len : Nat) :
    Except ExecError Invocation :=
  let p := Val.I32 (u32_as_i32 data_ptr)
  let l := Val.I32 (u32_as_i32 data_len)
  match method with
  | .Export method =>
    match inst.exports method with
    | none => .error (.Other "function is not found".toList)
    | some func =>
      match check_signature1 func.ty with
      | .error e => .error e
      | .ok _ => .ok ⟨func, [p, l]⟩
  | .Table func =>
    match inst.indirect_function_table with
    | none => .error .NoTable
    | some table =>
      if h : func < table.length then
        match table.get ⟨func, h⟩ with
        | none => .error (.FunctionRefIsNull func)
        | some func_ref =>
          match check_signature2 func_ref.ty with
          | .error e => .error e
          | .ok _ => .ok ⟨func_ref, [p, l]⟩
      else .error (.NoTableEntryWithIndex func)
  | .TableWithWrapper dispatcher_ref func =>
    match inst.indirect_function_table with
    | none => .error .NoTable
    | some table =>
      if h : dispatcher_ref < table.length then
        match table.get ⟨dispatcher_ref, h⟩ with
        | none => .error (.FunctionRefIsNull dispatcher_ref)
        | some func_ref =>
          match check_signature3 func_ref.ty with
          | .error e => .error e
          | .ok _ => .ok ⟨func_ref, [Val.I32 (u32_as_i32 func), p, l]⟩
      else .error (.NoTableEntryWithIndex dispatcher_ref)

/-- Embedding of `InstanceWrapper::call` (substrate instance_wrapper.rs
lines 68-154).  `run` is the opaque engine executing the resolved
invocation: it yields either the raw 64 bits of the single result value
or a trap message.  `panic_message` is what
`host_state.take_panic_message()` returns at trap time.  On success the
packed result is captured with `res[0].to_i64() as u64`
(`capture_result`). -/
def InstanceWrapper.call (inst : GuestInstance) (method : InvokeMethod)
    (data_ptr data_len : Nat) (run : Invocation → Except (List Char) Nat)
    (panic_message : Option (List Char)) : Except ExecError Nat :=
  match dispatch inst method data_ptr data_len with
  | .error e => .error e
  | .ok inv =>
    match run inv with
    | .error trap => .error (trap_to_error trap panic_message)
    | .ok bits => .ok (capture_result bits)

/-- Modelled from the spec: `sc_executor_common::util::checked_range`
is code of this repository that is not under src/ — the bounds check
behind every guest-memory read/write ("bounds-checked read/write of
byte ranges"): the range `offset..offset+len` is valid iff it fits
within `max` bytes. -/
def checked_range (offset len max : Nat) : Option (Nat × Nat) :=
  if offset + len ≤ max then some (offset, offset + len) else none

/-- Overwrite `memory[addr..addr+data.length]` with `data` (the
`memory[range].copy_from_slice(data)` step); meaningful when the range
is in bounds. -/
def writeBytes (memory : List Nat) (addr : Nat) (data : List Nat) : List Nat :=
  memory.take addr ++ data ++ memory.drop (addr + data.length)

/-- Embedding of `util::write_memory_from` (substrate util.rs lines
73-83): bounds-check the destination range, then copy `data` into it. -/
def write_memory_from (memory : List Nat) (address : Nat) (data : List Nat) :
    Except String (List Nat) :=
  match checked_range address data.length memory.length with
  | none => .error "memory write is out of bounds"
  | some _ => .ok (writeBytes memory address data)

/-- Embedding of `util::read_memory` (substrate util.rs lines 85-93,
with `read_memory_into` inlined): bounds-check the source range, then
return `size` bytes starting at `source_addr`. -/
def read_memory (memory : List Nat) (source_addr size : Nat) : Except String (List Nat) :=
  match checked_range source_addr size memory.length with
  | none => .error "memory read is out of bounds"
  | some _ => .ok ((memory.drop source_addr).take size)

/-- Modelled from the spec: `sc_allocator::FreeingBumpHeapAllocator` is
code of this repository that is not under src/ and its internals are
out of the spec's scope; the model keeps only the seed installed by
`FreeingBumpHeapAllocator::new(heap_base)`. -/
structure FreeingBumpHeapAllocator where
  heap_base : Nat
deriving DecidableEq

/-- State of a live instance that the fast-reuse reset touches: linear
memory bytes and live globals (globals store engine-side `Val`s,
written through `into_wasmedge_val`). -/
structure InstanceState where
  memory : List Nat
  globals : String → Option Val

/-- Modelled from the spec:
`sc_executor_common::runtime_blob::DataSegmentsSnapshot::apply` is code
of this repository that is not under src/ — the snapshot is an ordered
list of (byte-offset, byte-contents) pairs and `apply` runs the given
write for each pair in order, stopping at the first error.  Here the
write is the one passed at runtime.rs line 238: `write_memory_from`. -/
def apply_data_segments (segments : List (Nat × List Nat)) (memory : List Nat) :
    Except String (List Nat) :=
  match segments with
  | [] => .ok memory
  | (offset, contents) :: rest =>
    match write_memory_from memory offset contents with
    | .error e => .error e
    | .ok m => apply_data_segments rest m

/-- Modelled from the spec:
`sc_executor_common::runtime_blob::GlobalsSnapshot::apply` is code of
this repository that is not under src/ — the snapshot maps global
export names to their captured `Value`s and `apply` writes each entry
back through `InstanceGlobals::set_global_value` (runtime.rs lines
192-196), which stores `into_wasmedge_val value`. -/
def apply_globals (snapshot : List (String × Value)) (globals : String → Option Val) :
    String → Option Val :=
  match snapshot with
  | [] => globals
  | (n, v) :: rest =>
    apply_globals rest (fun name => if name = n then some (into_wasmedge_val v) else globals name)

/-- Steps 1-3 of a fast-reuse call (substrate runtime.rs lines 238-253):
rewrite every data-segment range, restore every snapshot global, and
construct the fresh allocator's seed state. -/
def fast_reuse_prepare (segments : List (Nat × List Nat)) (globals_snapshot : List (String × Value))
    (s : InstanceState) : Except String InstanceState :=
  match apply_data_segments segments s.memory with
  | .error e => .error e
  | .ok m => .ok ⟨m, apply_globals globals_snapshot s.globals⟩

/-- A fast-reuse call up to dispatch (substrate runtime.rs lines
230-265): restore both snapshots, build
`FreeingBumpHeapAllocator::new(heap_base)`, then hand the restored
state and the fresh allocator to the dispatch (`perform_call`).  The
post-call decommit only affects state that the next call's restore step
runs over again. -/
def fast_reuse_call {α : Type} (segments : List (Nat × List Nat))
    (globals_snapshot : List (String × Value)) (heap_base : Nat)
    (dispatch_call : InstanceState → FreeingBumpHeapAllocator → α) (s : InstanceState) :
    Except String α :=
  match fast_reuse_prepare segments globals_snapshot s with
  | .error e => .error e
  | .ok r => .ok (dispatch_call r (FreeingBumpHeapAllocator.mk heap_base))

/-- A memory position is covered by some data-segment snapshot range. -/
def segment_covered (segments : List (Nat × List Nat)) (i : Nat) : Prop :=
  ∃ p ∈ segments, p.1 ≤ i ∧ i < p.1 + p.2.length

/-- A global name is covered by some mutable-globals snapshot entry. -/
def global_covered (snapshot : List (String × Value)) (n : String) : Prop :=
  ∃ v, (n, v) ∈ snapshot

/-- The WASM page size in bytes (spec glossary: a page is 65536 bytes). -/
def wasm_page_size : Nat := 65536

/-- Byte length of the linear memory as computed by the newer copy
(substrate util.rs lines 95-109 `memory_slice`/`memory_slice_mut`, and
substrate instance_wrapper.rs decommit lines 247/268):
`memory.size() * 64 * 1024`. -/
def memory_slice_len (pages : Nat) : Nat := pages * 64 * 1024

/-- Byte length of the linear memory as computed by the older copy
(client instance_wrapper.rs `allocate_memory` line 241,
`deallocate_memory` line 259, `decommit` lines 284/305):
`memory.size() * 64 * 1024 * 8`. -/
def client_memory_slice_len (pages : Nat) : Nat := pages * 64 * 1024 * 8

/-- The four substrate-side value kinds
(`sp_wasm_interface::ValueType`). -/
inductive ValueType where
  | I32
  | I64
  | F32
  | F64
deriving DecidableEq

/-- Embedding of `util::into_wasmedge_val_type` (substrate util.rs lines
56-63). -/
def into_wasmedge_val_type : ValueType → ValType
  | .I32 => .I32
  | .I64 => .I64
  | .F32 => .F32
  | .F64 => .F64

/-- Declared shape of a host function
(`sp_wasm_interface::Signature`): parameter kinds and optional return
kind. -/
structure HostFuncSig where
  args : List ValueType
  return_value : Option ValueType
deriving DecidableEq

/-- A host-provided function as the import resolver sees it: a name and
a signature (`dyn Function`). -/
structure HostFunc where
  name : String
  signature : HostFuncSig
deriving DecidableEq

/-- The wasm-side `FuncType` built from a host function's signature
(substrate imports.rs lines 76-83). -/
def host_func_type (f : HostFunc) : FuncType :=
  ⟨f.signature.args.map into_wasmedge_val_type,
    f.signature.return_value.toList.map into_wasmedge_val_type⟩

/-- Kind of a declared import (`wasmedge_types::ExternalInstanceType`):
a function type, or anything else (memory/table/global), which the
resolver rejects. -/
inductive ImportKind where
  | Func (ty : FuncType)
  | NonFunc
deriving DecidableEq

/-- One declared import of the module (`ImportType`): module namespace,
item name, kind. -/
structure ImportTy where
  module_name : String
  name : String
  kind : ImportKind
deriving DecidableEq

/-- What an import ends up bound to: a wrapped host function, or the
always-failing stub used for permitted-missing imports. -/
inductive Binding where
  | hostCall (name : String) (f : HostFunc)
  | stub (name : String)
deriving DecidableEq

/-- Behaviour of the missing-import stub (substrate imports.rs lines
188-194): whatever the guest passes, the call fails with
`HostFuncError::User(HostFuncErrorWasmEdge::MissingHostFunc as u32)`,
i.e. user error code 1. -/
def stub_call (_inputs : List Val) : Except Nat (List Val) := .error 1

/-- First loop of `prepare_imports` (substrate imports.rs lines 46-68):
reject any import outside the `env` namespace and any non-function
import, and collect the function imports (name, declared type). -/
def collect_func_imports : List ImportTy → Except String (List (String × FuncType))
  | [] => .ok []
  | import_ty :: rest =>
    if import_ty.module_name ≠ "env" then
      .error ("host doesn't provide any imports from non-env module: " ++
        import_ty.module_name ++ ":" ++ import_ty.name)
    else
      match import_ty.kind with
      | .Func func_ty =>
        match collect_func_imports rest with
        | .error e => .error e
        | .ok pending => .ok ((import_ty.name, func_ty) :: pending)
      | .NonFunc =>
        .error ("host doesn't provide any non function imports: " ++
          import_ty.module_name ++ ":" ++ import_ty.name)

/-- Second loop of `prepare_imports` (substrate imports.rs lines
72-183): for each pending function import, look up a host function of
the same name; if found, compare the declared type with the one built
from the host signature and fail on mismatch, otherwise bind it; if not
found, record the name as missing. -/
def resolve_imports : List (String × FuncType) → List HostFunc →
    Except String (List Binding × List String)
  | [], _ => .ok ([], [])
  | (name, func_ty) :: rest, host_functions =>
    match host_functions.find? (fun host_func => host_func.name == name) with
    | some host_func =>
      if func_ty ≠ host_func_type host_func then
        .error ("signature mismatch for: env:" ++ name)
      else
        match resolve_imports rest host_functions with
        | .error e => .error e
        | .ok (bindings, missing) => .ok (.hostCall name host_func :: bindings, missing)
    | none =>
      match resolve_imports rest host_functions with
      | .error e => .error e
      | .ok (bindings, missing) => .ok (bindings, name :: missing)

/-- The single error enumerating every unresolved import (substrate
imports.rs lines 202-210): each name is formatted as `'env:name'` and
the list is joined with `", "`. -/
def missing_imports_error (names : List String) : String :=
  "runtime requires function imports which are not present on the host: " ++
    String.intercalate ", " (names.map (fun n => "'env:" ++ n ++ "'"))

/-- Embedding of `prepare_imports` (substrate imports.rs lines 37-223,
up to bindings): collect function imports, resolve them, then handle
the missing set — bind stubs when `allow_missing_func_imports` is set,
otherwise fail with one error enumerating every missing name. -/
def prepare_imports (imports : List ImportTy) (host_functions : List HostFunc)
    (allow_missing_func_imports : Bool) : Except String (List Binding) :=
  match collect_func_imports imports with
  | .error e => .error e
  | .ok pending =>
    match resolve_imports pending host_functions with
    | .error e => .error e
    | .ok (bindings, missing) =>
      if missing.isEmpty then .ok bindings
      else if allow_missing_func_imports then .ok (bindings ++ missing.map Binding.stub)
      else .error (missing_imports_error missing)

/-- Resolution loop of the older copy (client imports.rs lines 48-81):
identical lookup, but the signature comparison is commented out (lines
58-60), so a found import is bound without any type check. -/
def client_resolve_imports : List (String × FuncType) → List HostFunc →
    List Binding × List String
  | [], _ => ([], [])
  | (name, _) :: rest, host_functions =>
    match host_functions.find? (fun host_func => host_func.name == name) with
    | some host_func =>
      let (bindings, missing) := client_resolve_imports rest host_functions
      (.hostCall name host_func :: bindings, missing)
    | none =>
      let (bindings, missing) := client_resolve_imports rest host_functions
      (bindings, name :: missing)

/-- Embedding of the older copy's `prepare_imports` (client imports.rs
lines 10-135): in the `allow_missing_func_imports` branch (lines
84-102) the always-failing stub closure is constructed but its
registration (`import.add_func`) is commented out, so nothing is bound
for the missing imports and the import object is left as it was. -/
def client_prepare_imports (imports : List ImportTy) (host_functions : List HostFunc)
    (allow_missing_func_imports : Bool) : Except String (List Binding) :=
  match collect_func_imports imports with
  | .error e => .error e
  | .ok pending =>
    let (bindings, missing) := client_resolve_imports pending host_functions
    if missing.isEmpty then .ok bindings
    else if allow_missing_func_imports then .ok bindings
    else .error (missing_imports_error missing)

/-- Modelled from the spec: the sandbox status codes (`sp_sandbox::env`)
are code of this repository that is not under src/.  The spec fixes
only that ok / out-of-bounds / execution-failed / module-invalid are
distinct guest-visible integers; the exact numerals below follow the
usual substrate encoding (small negative `i32` values as `u32`). -/
def ERR_OK : Nat := 0

/-- Out-of-bounds status code (see `ERR_OK`). -/
def ERR_OUT_OF_BOUNDS : Nat := 4294967294

/-- Embedding of `Sandbox::memory_get` (substrate host.rs lines
123-158): look up the sandboxed memory by id (a failed lookup is a
host-side error), compute `let len = buf_len as usize + offset as
usize` (line 144), read `len` bytes of the sandboxed memory starting at
`offset`, and write the buffer into the outer instance's memory at
`buf_ptr`; a failed read or write yields `Ok(ERR_OUT_OF_BOUNDS)`.
Returns the status code and the (possibly updated) outer memory. -/
def sandbox_memory_get (store : List (List Nat)) (outer : List Nat)
    (memory_id offset buf_ptr buf_len : Nat) : Except String (Nat × List Nat) :=
  match store.get? memory_id with
  | none => .error "sandboxed memory with the given id is not found"
  | some sandboxed_memory =>
    let len := buf_len + offset
    match read_memory sandboxed_memory offset len with
    | .error _ => .ok (ERR_OUT_OF_BOUNDS, outer)
    | .ok buffer =>
      match write_memory_from outer buf_ptr buffer with
      | .error _ => .ok (ERR_OUT_OF_BOUNDS, outer)
      | .ok m => .ok (ERR_OK, m)

/-- Embedding of `Sandbox::memory_set` (substrate host.rs lines
160-193): look up the sandboxed memory, read `val_len` bytes of the
outer memory at `val_ptr`, write them into the sandboxed memory at
`offset`; a failed read or write yields `Ok(ERR_OUT_OF_BOUNDS)`.
Returns the status code and the (possibly updated) sandboxed memory. -/
def sandbox_memory_set (store : List (List Nat)) (outer : List Nat)
    (memory_id offset val_ptr val_len : Nat) : Except String (Nat × List Nat) :=
  match store.get? memory_id with
  | none => .error "sandboxed memory with the given id is not found"
  | some sandboxed_memory =>
    let len := val_len
    match read_memory outer val_ptr len with
    | .error _ => .ok (ERR_OUT_OF_BOUNDS, sandboxed_memory)
    | .ok buffer =>
      match write_memory_from sandboxed_memory offset buffer with
      | .error _ => .ok (ERR_OUT_OF_BOUNDS, sandboxed_memory)
      | .ok m => .ok (ERR_OK, m)

/-- The immutable compiled module, as far as global reads are
concerned: the initial value of every named global.  Per the engine
capability (spec section 6), `Module.instantiate()` yields an instance
whose live globals hold exactly these initial values. -/
structure WModule where
  globals_init : String → Option Val

/-- The mutable slot `InstanceWrapper.instance`: `None` before the
first instantiation, otherwise the live instance's globals (possibly
mutated by completed calls). -/
structure InstanceWrapperState where
  instance_globals : Option (String → Option Val)

/-- Embedding of `InstanceWrapper::instantiate` (substrate
instance_wrapper.rs lines 53-66): register a brand-new active module
instance, replacing whatever instance was stored before. -/
def instantiate (m : WModule) (_w : InstanceWrapperState) : InstanceWrapperState :=
  ⟨some m.globals_init⟩

/-- Embedding of `InstanceWrapper::get_global_val` (substrate
instance_wrapper.rs lines 176-190): read the named global of the
current instance and convert it with the `Val -> Value` casts; missing
instance or missing global or a non-numeric value is an error. -/
def get_global_val (w : InstanceWrapperState) (name : String) : Except String (Option Value) :=
  match w.instance_globals with
  | none => .error "wasmedge instance is always set; qed"
  | some globals =>
    match globals name with
    | none => .error "failed to get WASM global"
    | some v =>
      match v with
      | .I32 x => .ok (some (.I32 x))
      | .I64 x => .ok (some (.I64 x))
      | .F32 x => .ok (some (.F32 (f32_value_as_u32 x)))
      | .F64 x => .ok (some (.F64 (f64_value_as_u64 x)))
      | .FuncRef _ => .error "Unknown value type"

/-- Embedding of `WasmInstance::get_global_const` in the
`RecreateInstance` arm (substrate runtime.rs lines 284-291): first
`instance_creator.instantiate()`, then read the global from the fresh
instance. -/
def get_global_const_recreate (m : WModule) (w : InstanceWrapperState) (name : String) :
    Except String (Option Value) :=
  get_global_val (instantiate m w) name

/-- Embedding of `WasmInstance::get_global_const` in the
`FastInstanceReuse` arm (substrate runtime.rs lines 280-283): read the
global from the live reused instance. -/
def get_global_const_fast_reuse (live : InstanceWrapperState) (name : String) :
    Except String (Option Value) :=
  get_global_val live name

/-- Sample trap text containing the engine's backtrace marker. -/
def sample_trap : List Char :=
  ("unreachable instruction executed" ++ "\nwasm backtrace:" ++ "\n  0: main").toList

/-- Sample recorded host-side fatal message. -/
def sample_panic : List Char := "host function panicked".toList

/-- Sample function with the exact entry-point type. -/
def entry_func : FuncEntry := ⟨0, entry_point_signature⟩

/-- Sample function with a wrong type. -/
def bad_func : FuncEntry := ⟨1, ⟨[.I64], [.I64]⟩⟩

/-- Sample instance without an indirect function table. -/
def inst_no_table : GuestInstance := ⟨fun _ => none, none⟩

/-- Sample instance with two exports and a two-slot table whose second
slot is a null function reference. -/
def inst_with_table : GuestInstance :=
  ⟨fun n => if n = "main" then some entry_func else if n = "bad" then some bad_func else none,
    some [some entry_func, none]⟩

/-- The invocation produced by dispatching `Export "main"` with
pointer 16 and length 4. -/
def sample_invocation : Invocation :=
  ⟨entry_func, [Val.I32 (u32_as_i32 16), Val.I32 (u32_as_i32 4)]⟩

/-- Sample engine run that always traps with `sample_trap`. -/
def sample_run : Invocation → Except (List Char) Nat := fun _ => .error sample_trap

/-- Sample data-segment snapshot: two bytes at offset 0. -/
def c4_segments : List (Nat × List Nat) := [(0, [1, 2])]

/-- Sample mutable-globals snapshot. -/
def c4_globals : List (String × Value) := [("g", .I32 5)]

/-- A dirty state left over by a previous call. -/
def c4_state1 : InstanceState := ⟨[9, 9, 9], fun _ => some (.I64 7)⟩

/-- A different dirty state (e.g. after an aborted call). -/
def c4_state2 : InstanceState := ⟨[0, 0, 0], fun _ => none⟩

/-- The state `c4_state1` restores to. -/
def c4_restored1 : InstanceState :=
  ⟨writeBytes c4_state1.memory 0 [1, 2], apply_globals c4_globals c4_state1.globals⟩

/-- The state `c4_state2` restores to. -/
def c4_restored2 : InstanceState :=
  ⟨writeBytes c4_state2.memory 0 [1, 2], apply_globals c4_globals c4_state2.globals⟩

/-- Sample function import `env:a` with no matching host function. -/
def imp_a : ImportTy := ⟨"env", "a", .Func ⟨[.I32], []⟩⟩

/-- Sample function import `env:b` with no matching host function. -/
def imp_b : ImportTy := ⟨"env", "b", .Func ⟨[], [.I64]⟩⟩

/-- Sample function import `env:c` that the host provides. -/
def imp_c : ImportTy := ⟨"env", "c", .Func ⟨[.I32, .I32], [.I64]⟩⟩

/-- The host function matching `imp_c`. -/
def hf_c : HostFunc := ⟨"c", ⟨[.I32, .I32], some .I64⟩⟩

/-- Sample 16-byte sandboxed memory holding bytes 0..15. -/
def c9_sandbox_mem : List Nat := List.range 16

/-- Sample 20-byte zeroed outer linear memory. -/
def c9_outer : List Nat := List.replicate 20 0

/-- Sample module with one i32 global. -/
def c10_module : WModule :=
  ⟨fun n => if n = "__heap_base" then some (.I32 1048576) else none⟩

/-- A wrapper whose live instance has mutated that global to 0. -/
def c10_mutated : InstanceWrapperState :=
  ⟨some (fun n => if n = "__heap_base" then some (.I32 0) else none)⟩

/-- A successful prefix test exposes the matched prefix. -/
theorem leadsWith_exists {m s : List Char} (h : leadsWith m s = true) : ∃ t, s = m ++ t := by
  induction m generalizing s with
  | nil => exact ⟨s, rfl⟩
  | cons a as ih =>
    cases s with
    | nil => simp [leadsWith] at h
    | cons b bs =>
      simp only [leadsWith, Bool.and_eq_true, decide_eq_true_eq] at h
      obtain ⟨t, ht⟩ := ih h.2
      exact ⟨t, by simp [h.1, ht]⟩

/-- When the marker search succeeds, the input splits as text before the
marker, the marker itself, and the returned remainder: everything up to
and including the marker is what gets stripped. -/
theorem findAfterMarker_eq_some {marker s rest : List Char}
    (h : findAfterMarker marker s = some rest) : ∃ pre, s = pre ++ marker ++ rest := by
  induction s with
  | nil => simp [findAfterMarker] at h
  | cons c cs ih =>
    by_cases hl : leadsWith marker (c :: cs)
    · simp only [findAfterMarker, hl, if_true, Option.some.injEq] at h
      obtain ⟨t, ht⟩ := leadsWith_exists hl
      refine ⟨[], ?_⟩
      rw [List.nil_append, ht, ← h, ht, List.drop_left]
    · simp only [findAfterMarker, hl, if_false] at h
      obtain ⟨pre, hpre⟩ := ih h
      exact ⟨c :: pre, by simp [hpre]⟩

/-- Writing in bounds preserves the memory length. -/
theorem writeBytes_length {m d : List Nat} {a : Nat} (h : a + d.length ≤ m.length) :
    (writeBytes m a d).length = m.length := by
  simp only [writeBytes, List.length_append, List.length_take, List.length_drop]
  omega

/-- Inside the written range, the new memory holds the written data. -/
theorem writeBytes_get_in {m d : List Nat} {a i : Nat} (h : a + d.length ≤ m.length)
    (h1 : a ≤ i) (h2 : i < a + d.length) : (writeBytes m a d)[i]? = d[i - a]? := by
  have hta : (m.take a).length = a := by
    rw [List.length_take]
    omega
  have hab : (m.take a ++ d).length = a + d.length := by
    rw [List.length_append, hta]
  rw [writeBytes, List.getElem?_append, if_pos (by rw [hab]; omega),
    List.getElem?_append_right (by rw [hta]; omega), hta]

/-- Outside the written range, the new memory agrees with the old. -/
theorem writeBytes_get_out {m d : List Nat} {a i : Nat} (h : a + d.length ≤ m.length)
    (hout : i < a ∨ a + d.length ≤ i) : (writeBytes m a d)[i]? = m[i]? := by
  have hta : (m.take a).length = a := by
    rw [List.length_take]
    omega
  have hab : (m.take a ++ d).length = a + d.length := by
    rw [List.length_append, hta]
  rcases hout with hlt | hge
  · rw [writeBytes, List.getElem?_append, if_pos (by rw [hab]; omega),
      List.getElem?_append, if_pos (by rw [hta]; omega), List.getElem?_take, if_pos hlt]
  · rw [writeBytes, List.getElem?_append, if_neg (by rw [hab]; omega), hab,
      List.getElem?_drop]
    have hidx : a + d.length + (i - (a + d.length)) = i := by omega
    rw [hidx]

/-- A successful bounds-checked write is in bounds and produces
`writeBytes`. -/
theorem write_memory_from_ok {m d r : List Nat} {a : Nat}
    (h : write_memory_from m a d = .ok r) :
    a + d.length ≤ m.length ∧ r = writeBytes m a d := by
  unfold write_memory_from checked_range at h
  by_cases hc : a + d.length ≤ m.length
  · simp only [hc, if_true, Except.ok.injEq] at h
    exact ⟨hc, h.symm⟩
  · simp [hc] at h

/-- Applying data segments preserves the memory length. -/
theorem apply_data_segments_length : ∀ {segs : List (Nat × List Nat)} {m r : List Nat},
    apply_data_segments segs m = .ok r → r.length = m.length := by
  intro segs
  induction segs with
  | nil =>
    intro m r h
    simp only [apply_data_segments, Except.ok.injEq] at h
    rw [h]
  | cons p rest ih =>
    obtain ⟨off, d⟩ := p
    intro m r h
    simp only [apply_data_segments] at h
    cases hw : write_memory_from m off d with
    | error e => rw [hw] at h; cases h
    | ok m2 =>
      rw [hw] at h
      obtain ⟨hb, rfl⟩ := write_memory_from_ok hw
      rw [ih h, writeBytes_length hb]

/-- After applying the same segment list to two memories of equal
length, the results agree on every position covered by a segment (and
on every position the inputs already agreed on). -/
theorem apply_data_segments_agree :
    ∀ (segs : List (Nat × List Nat)) (P : Nat → Prop) (m1 m2 r1 r2 : List Nat),
    m1.length = m2.length →
    (∀ i, P i → m1[i]? = m2[i]?) →
    apply_data_segments segs m1 = .ok r1 →
    apply_data_segments segs m2 = .ok r2 →
    ∀ i, P i ∨ segment_covered segs i → r1[i]? = r2[i]? := by
  intro segs
  induction segs with
  | nil =>
    intro P m1 m2 r1 r2 hlen hP h1 h2 i hi
    simp only [apply_data_segments, Except.ok.injEq] at h1 h2
    rw [← h1, ← h2]
    rcases hi with hp | hc
    · exact hP i hp
    · exact absurd hc (by simp [segment_covered])
  | cons p rest ih =>
    obtain ⟨off, d⟩ := p
    intro P m1 m2 r1 r2 hlen hP h1 h2 i hi
    simp only [apply_data_segments] at h1 h2
    cases hw1 : write_memory_from m1 off d with
    | error e => rw [hw1] at h1; cases h1
    | ok m1w =>
    cases hw2 : write_memory_from m2 off d with
    | error e => rw [hw2] at h2; cases h2
    | ok m2w =>
    rw [hw1] at h1
    rw [hw2] at h2
    obtain ⟨hb1, rfl⟩ := write_memory_from_ok hw1
    obtain ⟨hb2, rfl⟩ := write_memory_from_ok hw2
    refine ih (fun j => P j ∨ (off ≤ j ∧ j < off + d.length)) _ _ _ _ ?_ ?_ h1 h2 i ?_
    · rw [writeBytes_length hb1, writeBytes_length hb2, hlen]
    · intro j hj
      by_cases hr : off ≤ j ∧ j < off + d.length
      · rw [writeBytes_get_in hb1 hr.1 hr.2, writeBytes_get_in hb2 hr.1 hr.2]
      · have hout : j < off ∨ off + d.length ≤ j := by omega
        rcases hj with hp | hr2
        · rw [writeBytes_get_out hb1 hout, writeBytes_get_out hb2 hout]
          exact hP j hp
        · exact absurd hr2 hr
    · rcases hi with hp | hc
      · exact Or.inl (Or.inl hp)
      · obtain ⟨q, hq, hle, hlt⟩ := hc
        rcases List.mem_cons.mp hq with heq | hmem
        · rw [heq] at hle hlt
          exact Or.inl (Or.inr ⟨hle, hlt⟩)
        · exact Or.inr ⟨q, hmem, hle, hlt⟩

/-- Restoring globals does not touch names outside the snapshot. -/
theorem apply_globals_not_covered :
    ∀ (snap : List (String × Value)) (g : String → Option Val) (n : String),
    (∀ v, (n, v) ∉ snap) → apply_globals snap g n = g n := by
  intro snap
  induction snap with
  | nil => intro g n _; rfl
  | cons p rest ih =>
    obtain ⟨m, v⟩ := p
    intro g n hn
    simp only [apply_globals]
    rw [ih _ n (fun w hw => hn w (List.mem_cons_of_mem _ hw))]
    have hne : ¬n = m := by
      intro he
      exact hn v (by rw [he]; exact List.mem_cons_self _ _)
    simp [hne]

/-- On every snapshot-covered name, the restored globals do not depend
on the globals the instance had before the restore. -/
theorem apply_globals_covered_agree :
    ∀ (snap : List (String × Value)) (g1 g2 : String → Option Val) (n : String),
    global_covered snap n → apply_globals snap g1 n = apply_globals snap g2 n := by
  intro snap
  induction snap with
  | nil =>
    intro g1 g2 n h
    exact absurd h (by simp [global_covered])
  | cons p rest ih =>
    obtain ⟨m, v⟩ := p
    intro g1 g2 n h
    simp only [apply_globals]
    by_cases hc : global_covered rest n
    · exact ih _ _ n hc
    · have hnotin : ∀ w, (n, w) ∉ rest := fun w hw => hc ⟨w, hw⟩
      rw [apply_globals_not_covered rest _ n hnotin, apply_globals_not_covered rest _ n hnotin]
      obtain ⟨w, hw⟩ := h
      rcases List.mem_cons.mp hw with heq | hmem
      · have hnm : n = m := congrArg Prod.fst heq
        simp [hnm]
      · exact absurd ⟨w, hmem⟩ hc

/-- The missing-name list computed by `resolve_imports` is exactly the
set of pending import names with no host function of that name — every
unresolved name, not just the first. -/
theorem resolve_imports_missing_eq_filter :
    ∀ (pending : List (String × FuncType)) (hfs : List HostFunc)
      (bindings : List Binding) (missing : List String),
    resolve_imports pending hfs = .ok (bindings, missing) →
    missing = (pending.map Prod.fst).filter
      (fun n => (hfs.find? (fun host_func => host_func.name == n)).isNone) := by
  intro pending
  induction pending with
  | nil =>
    intro hfs bindings missing h
    simp only [resolve_imports, Except.ok.injEq, Prod.mk.injEq] at h
    simp [← h.2]
  | cons p rest ih =>
    obtain ⟨name, fty⟩ := p
    intro hfs bindings missing h
    simp only [resolve_imports] at h
    cases hf : hfs.find? (fun host_func => host_func.name == name) with
    | some host_func =>
      rw [hf] at h
      by_cases hty : fty ≠ host_func_type host_func
      · simp [hty] at h
      · simp only [hty, if_false] at h
        cases hrest : resolve_imports rest hfs with
        | error e => rw [hrest] at h; cases h
        | ok pr =>
          obtain ⟨bs, ms⟩ := pr
          rw [hrest] at h
          simp only [Except.ok.injEq, Prod.mk.injEq] at h
          rw [← h.2, ih hfs bs ms hrest]
          simp [List.filter_cons, hf]
    | none =>
      rw [hf] at h
      cases hrest : resolve_imports rest hfs with
      | error e => rw [hrest] at h; cases h
      | ok pr =>
        obtain ⟨bs, ms⟩ := pr
        rw [hrest] at h
        simp only [Except.ok.injEq, Prod.mk.injEq] at h
        rw [← h.2, ih hfs bs ms hrest]
        simp [List.filter_cons, hf]

/-- C1: the newer copy captures the guest's 64-bit result bit-for-bit
(`to_i64() as u64` is the identity on the 64 raw bits) and pack/unpack
split the value into (pointer, length) halves with one fixed, mutually
inverse order; but the older copy's capture (`to_f64() as u64`) is not
bit-for-bit: at the packed value for (ptr, len) = (0, 1), namely
2^32, it returns 0, losing the result. -/
theorem c1_packed_result_capture :
    (∀ bits : Nat, capture_result bits = bits % 2 ^ 64) ∧
    (∀ ptr len : Nat,
      unpack_ptr_and_len (pack_ptr_and_len ptr len) = (ptr % 2 ^ 32, len % 2 ^ 32)) ∧
    pack_ptr_and_len 0 1 = 4294967296 ∧
    client_capture_result 4294967296 = 0 := by
  refine ⟨?_, ?_, by decide, by decide⟩
  · intro bits
    unfold capture_result wasm_to_i64 i64_as_u64
    by_cases hb : bits % 2 ^ 64 < 2 ^ 63
    · rw [if_pos hb]
      omega
    · rw [if_neg hb]
      have hlt : bits % 2 ^ 64 < 2 ^ 64 := Nat.mod_lt _ (by norm_num)
      omega
  · intro ptr len
    unfold unpack_ptr_and_len pack_ptr_and_len
    rw [Prod.mk.injEq]
    constructor
    · omega
    · omega

/-- C2: converting a runtime `Value` to the engine representation and
back is the identity on the integer kinds, but the float-bit-pattern
kinds go through numeric casts (`f_bits as f32` / `v as u32`), which
round: the F32 bit pattern 16777217 (= 2^24 + 1) comes back as
16777216, and the F64 bit pattern 2^53 + 1 comes back as 2^53, so
`marshal(unmarshal(v)) == v` fails for the float kinds. -/
theorem c2_value_roundtrip :
    (∀ v : Int, from_wasmedge_val (into_wasmedge_val (.I32 v)) = some (.I32 v)) ∧
    (∀ v : Int, from_wasmedge_val (into_wasmedge_val (.I64 v)) = some (.I64 v)) ∧
    from_wasmedge_val (into_wasmedge_val (.F32 16777217)) = some (.F32 16777216) ∧
    from_wasmedge_val (into_wasmedge_val (.F64 9007199254740993)) =
      some (.F64 9007199254740992) ∧
    Value.F32 16777216 ≠ Value.F32 16777217 := by
  exact ⟨fun v => rfl, fun v => rfl, by decide, by decide, by decide⟩

/-- C3: when the resolved dispatch traps, `call` returns
`AbortedDueToPanic` carrying the recorded fatal message whenever the
host state holds one, and only otherwise `AbortedDueToTrap` carrying
the trap message; in both cases the stored backtrace is the trap text
with everything up to and including the `"\nwasm backtrace:"` marker
stripped (when the marker occurs, the backtrace is exactly the text
after its first occurrence). -/
theorem c3_trap_panic_precedence (inst : GuestInstance) (method : InvokeMethod)
    (data_ptr data_len : Nat) (run : Invocation → Except (List Char) Nat)
    (inv : Invocation) (trap : List Char) (panic_message : Option (List Char))
    (hd : dispatch inst method data_ptr data_len = .ok inv)
    (hr : run inv = .error trap) :
    (∀ m, panic_message = some m →
      InstanceWrapper.call inst method data_ptr data_len run panic_message =
        .error (.AbortedDueToPanic m (stripped_backtrace trap))) ∧
    (panic_message = none →
      InstanceWrapper.call inst method data_ptr data_len run panic_message =
        .error (.AbortedDueToTrap trap (stripped_backtrace trap))) ∧
    (∀ rest, findAfterMarker wasm_backtrace_marker trap = some rest →
      ∃ pre, trap = pre ++ wasm_backtrace_marker ++ rest) := by
  refine ⟨?_, ?_, fun rest hrest => findAfterMarker_eq_some hrest⟩
  · intro m hm
    rw [hm]
    simp only [InstanceWrapper.call, hd, hr]
    rfl
  · intro hn
    rw [hn]
    simp only [InstanceWrapper.call, hd, hr]
    rfl

/-- Witness for C3 at a concrete trapping call: with a recorded panic
message the result is `AbortedDueToPanic`, without one it is
`AbortedDueToTrap`, each with the stripped backtrace. -/
theorem c3_trap_panic_precedence_witness :
    InstanceWrapper.call inst_with_table (.Export "main") 16 4 sample_run
        (some sample_panic) =
      .error (.AbortedDueToPanic sample_panic (stripped_backtrace sample_trap)) ∧
    InstanceWrapper.call inst_with_table (.Export "main") 16 4 sample_run none =
      .error (.AbortedDueToTrap sample_trap (stripped_backtrace sample_trap)) :=
  ⟨(c3_trap_panic_precedence inst_with_table (.Export "main") 16 4 sample_run
      sample_invocation sample_trap (some sample_panic) rfl rfl).1 sample_panic rfl,
    (c3_trap_panic_precedence inst_with_table (.Export "main") 16 4 sample_run
      sample_invocation sample_trap none rfl rfl).2.1 rfl⟩

/-- C4: a fast-reuse call first rewrites every data-segment range and
restores every snapshot global, and dispatch receives exactly that
restored state together with a freshly built allocator seeded at
`heap_base` — so on every snapshot-covered memory position and every
snapshot global, the state observable at the start of a call is the
same no matter which (possibly aborted) call ran before. -/
theorem c4_fast_reuse_reset (segments : List (Nat × List Nat))
    (globals_snapshot : List (String × Value)) (heap_base : Nat)
    (s1 s2 r1 r2 : InstanceState)
    (hlen : s1.memory.length = s2.memory.length)
    (h1 : fast_reuse_prepare segments globals_snapshot s1 = .ok r1)
    (h2 : fast_reuse_prepare segments globals_snapshot s2 = .ok r2) :
    (∀ i, segment_covered segments i → r1.memory[i]? = r2.memory[i]?) ∧
    (∀ n, global_covered globals_snapshot n → r1.globals n = r2.globals n) ∧
    (∀ (α : Type) (dispatch_call : InstanceState → FreeingBumpHeapAllocator → α),
      fast_reuse_call segments globals_snapshot heap_base dispatch_call s1 =
        .ok (dispatch_call r1 (FreeingBumpHeapAllocator.mk heap_base))) := by
  unfold fast_reuse_prepare at h1 h2
  cases ha1 : apply_data_segments segments s1.memory with
  | error e => rw [ha1] at h1; cases h1
  | ok m1 =>
  cases ha2 : apply_data_segments segments s2.memory with
  | error e => rw [ha2] at h2; cases h2
  | ok m2 =>
  rw [ha1] at h1
  rw [ha2] at h2
  simp only [Except.ok.injEq] at h1 h2
  refine ⟨?_, ?_, ?_⟩
  · intro i hi
    rw [← h1, ← h2]
    exact apply_data_segments_agree segments (fun _ => False) _ _ _ _ hlen
      (fun j hj => absurd hj (by trivial)) ha1 ha2 i (Or.inr hi)
  · intro n hn
    rw [← h1, ← h2]
    exact apply_globals_covered_agree globals_snapshot _ _ n hn
  · intro α dispatch_call
    simp only [fast_reuse_call, fast_reuse_prepare, ha1]
    rw [h1]

/-- Witness for C4: two different dirty states restore to states that
agree on the snapshot-covered byte and global, and dispatch receives
the restored state with the fresh allocator. -/
theorem c4_fast_reuse_reset_witness :
    c4_restored1.memory[0]? = c4_restored2.memory[0]? ∧
    c4_restored1.globals "g" = c4_restored2.globals "g" ∧
    fast_reuse_call c4_segments c4_globals 1048576 (fun s a => (s.memory, a)) c4_state1 =
      .ok (c4_restored1.memory, FreeingBumpHeapAllocator.mk 1048576) := by
  have h := c4_fast_reuse_reset c4_segments c4_globals 1048576 c4_state1 c4_state2
    c4_restored1 c4_restored2 rfl rfl rfl
  refine ⟨?_, ?_, ?_⟩
  · exact h.1 0 ⟨(0, [1, 2]), by simp [c4_segments], by simp⟩
  · exact h.2.1 "g" ⟨.I32 5, by simp [c4_globals]⟩
  · exact h.2.2 (List Nat × FreeingBumpHeapAllocator) (fun s a => (s.memory, a))

/-- C5: dispatching through the indirect function table fails with
`NoTable` when the instance has no `__indirect_function_table`, with
`NoTableEntryWithIndex` carrying the index when it is out of range, and
with `FunctionRefIsNull` carrying the index when the slot holds a null
function reference — in every case `call` returns the error for any
engine behaviour, so no function is invoked and the host does not
crash.  This covers both `Table idx` and
`TableWithWrapper idx func`. -/
theorem c5_table_dispatch_errors (inst : GuestInstance) (idx func data_ptr data_len : Nat) :
    (inst.indirect_function_table = none →
      ∀ run panic_message,
        InstanceWrapper.call inst (.Table idx) data_ptr data_len run panic_message =
          .error .NoTable ∧
        InstanceWrapper.call inst (.TableWithWrapper idx func) data_ptr data_len run
          panic_message = .error .NoTable) ∧
    (∀ table, inst.indirect_function_table = some table → table.length ≤ idx →
      ∀ run panic_message,
        InstanceWrapper.call inst (.Table idx) data_ptr data_len run panic_message =
          .error (.NoTableEntryWithIndex idx) ∧
        InstanceWrapper.call inst (.TableWithWrapper idx func) data_ptr data_len run
          panic_message = .error (.NoTableEntryWithIndex idx)) ∧
    (∀ table (h : idx < table.length), inst.indirect_function_table = some table →
      table.get ⟨idx, h⟩ = none →
      ∀ run panic_message,
        InstanceWrapper.call inst (.Table idx) data_ptr data_len run panic_message =
          .error (.FunctionRefIsNull idx) ∧
        InstanceWrapper.call inst (.TableWithWrapper idx func) data_ptr data_len run
          panic_message = .error (.FunctionRefIsNull idx)) := by
  refine ⟨?_, ?_, ?_⟩
  · intro ht run panic_message
    constructor
    · simp only [InstanceWrapper.call, dispatch, ht]
    · simp only [InstanceWrapper.call, dispatch, ht]
  · intro table ht hlen run panic_message
    constructor
    · simp only [InstanceWrapper.call, dispatch, ht]
      rw [dif_neg (by omega)]
    · simp only [InstanceWrapper.call, dispatch, ht]
      rw [dif_neg (by omega)]
  · intro table h ht hslot run panic_message
    constructor
    · simp only [InstanceWrapper.call, dispatch, ht]
      rw [dif_pos h, hslot]
    · simp only [InstanceWrapper.call, dispatch, ht]
      rw [dif_pos h, hslot]

/-- Witness for C5 at concrete instances: missing table, out-of-range
index 5 in a two-slot table, and a null slot at index 1. -/
theorem c5_table_dispatch_errors_witness :
    InstanceWrapper.call inst_no_table (.Table 0) 16 4 sample_run none = .error .NoTable ∧
    InstanceWrapper.call inst_with_table (.Table 5) 16 4 sample_run none =
      .error (.NoTableEntryWithIndex 5) ∧
    InstanceWrapper.call inst_with_table (.Table 1) 16 4 sample_run none =
      .error (.FunctionRefIsNull 1) :=
  ⟨((c5_table_dispatch_errors inst_no_table 0 0 16 4).1 rfl sample_run none).1,
    ((c5_table_dispatch_errors inst_with_table 5 0 16 4).2.1 [some entry_func, none] rfl
      (by simp) sample_run none).1,
    ((c5_table_dispatch_errors inst_with_table 1 0 16 4).2.2 [some entry_func, none]
      (by simp) rfl rfl sample_run none).1⟩

/-- C6: an `Export` dispatch checks the exported function's type for
exact equality with the two-argument entry-point ABI (two 32-bit
parameters, one 64-bit packed result) before any invocation: on
mismatch `call` returns the fatal invalid-signature error (an `Other`
error, not an `AbortedDueToTrap`) no matter what the engine would do,
and on an exact match the dispatch proceeds to the invocation with the
two pointer/length arguments. -/
theorem c6_export_signature_check (inst : GuestInstance) (name : String) (f : FuncEntry)
    (data_ptr data_len : Nat) (hf : inst.exports name = some f) :
    (f.ty ≠ entry_point_signature →
      ∀ run panic_message,
        InstanceWrapper.call inst (.Export name) data_ptr data_len run panic_message =
          .error (.Other invalid_signature_msg)) ∧
    (f.ty = entry_point_signature →
      dispatch inst (.Export name) data_ptr data_len =
        .ok ⟨f, [Val.I32 (u32_as_i32 data_ptr), Val.I32 (u32_as_i32 data_len)]⟩) ∧
    (∀ m bt, (ExecError.Other invalid_signature_msg) ≠ .AbortedDueToTrap m bt) := by
  refine ⟨?_, ?_, fun m bt heq => ExecError.noConfusion heq⟩
  · intro hne run panic_message
    have hbad : f.ty.params ≠ [.I32, .I32] ∨ f.ty.returns ≠ [.I64] := by
      by_contra hcon
      push_neg at hcon
      refine hne ?_
      show f.ty = FuncType.mk [.I32, .I32] [.I64]
      rw [← hcon.1, ← hcon.2]
    simp only [InstanceWrapper.call, dispatch, hf, check_signature1, if_pos hbad]
  · intro hty
    simp only [dispatch, hf, check_signature1, hty, entry_point_signature]
    rw [if_neg (by simp)]

/-- Witness for C6: the mismatched export `bad` yields the fatal
invalid-signature error and the well-typed export `main` dispatches to
its invocation. -/
theorem c6_export_signature_check_witness :
    InstanceWrapper.call inst_with_table (.Export "bad") 16 4 sample_run none =
      .error (.Other invalid_signature_msg) ∧
    dispatch inst_with_table (.Export "main") 16 4 = .ok sample_invocation :=
  ⟨(c6_export_signature_check inst_with_table "bad" bad_func 16 4 rfl).1 (by decide)
      sample_run none,
    (c6_export_signature_check inst_with_table "main" entry_func 16 4 rfl).2.1 rfl⟩

/-- C7: in the newer copy, with `allow_missing_func_imports` unset the
resolver fails with one error enumerating every unresolved import name
(here both `env:a` and `env:b`, not just the first), and with it set
every unresolved import is bound to the stub, which fails on every
call; but in the older copy the stub registration is commented out, so
an unresolved import under allow-missing is bound to nothing at all. -/
theorem c7_missing_import_handling :
    prepare_imports [imp_a, imp_b, imp_c] [hf_c] false =
      .error (missing_imports_error ["a", "b"]) ∧
    missing_imports_error ["a", "b"] =
      "runtime requires function imports which are not present on the host: 'env:a', 'env:b'" ∧
    prepare_imports [imp_a, imp_b, imp_c] [hf_c] true =
      .ok [.hostCall "c" hf_c, .stub "a", .stub "b"] ∧
    (∀ inputs, stub_call inputs = .error 1) ∧
    client_prepare_imports [imp_a] [] true = .ok [] := by
  exact ⟨rfl, rfl, rfl, fun _ => rfl, rfl⟩

/-- C8: the newer copy sizes the linear memory as pages times the
standard 65536-byte WASM page size, but the older copy's
allocate/deallocate/decommit call sites multiply pages by 65536 * 8 =
524288, so the byte length is not computed uniformly with the 65536
multiplier at every call site. -/
theorem c8_page_size_multiplier :
    (∀ pages, memory_slice_len pages = pages * wasm_page_size) ∧
    memory_slice_len 1 = 65536 ∧
    client_memory_slice_len 1 = 524288 ∧
    client_memory_slice_len 1 ≠ 1 * wasm_page_size := by
  refine ⟨?_, by decide, by decide, by decide⟩
  intro pages
  simp only [memory_slice_len, wasm_page_size, Nat.mul_assoc]

/-- C9: with a 16-byte sandboxed memory, `memory_get` with offset 4 and
buffer length 4 succeeds with the ok status but copies
`buf_len + offset = 8` bytes (sandboxed bytes 4..11) into the outer
memory instead of exactly `buf_len = 4`; with offset 10 and length 4 —
a range the sandboxed memory does contain — it spuriously reports
out-of-bounds because it checks `offset + (buf_len + offset)`; a
genuinely out-of-range read and a `memory_set` with an out-of-range
source both come back as a *successful* host result carrying the
out-of-bounds status code, never a host-side error. -/
theorem c9_sandbox_memory_bounds :
    sandbox_memory_get [c9_sandbox_mem] c9_outer 0 4 2 4 =
      .ok (ERR_OK, [0, 0, 4, 5, 6, 7, 8, 9, 10, 11, 0, 0, 0, 0, 0, 0, 0, 0, 0, 0]) ∧
    sandbox_memory_get [c9_sandbox_mem] c9_outer 0 10 2 4 = .ok (ERR_OUT_OF_BOUNDS, c9_outer) ∧
    sandbox_memory_get [c9_sandbox_mem] c9_outer 0 14 2 4 = .ok (ERR_OUT_OF_BOUNDS, c9_outer) ∧
    sandbox_memory_set [c9_sandbox_mem] c9_outer 0 3 30 4 =
      .ok (ERR_OUT_OF_BOUNDS, c9_sandbox_mem) := by
  exact ⟨rfl, rfl, rfl, rfl⟩

/-- C10: under `RecreateInstance`, `get_global_const` instantiates a
brand-new instance before reading, so its answer does not depend on
whatever (possibly mutated) instance the wrapper held, and equals the
read from the module's pristine initial globals — in particular an
i32 global comes back with its initial value; under
`FastInstanceReuse` it reads the live reused instance. -/
theorem c10_get_global_const (m : WModule) (w1 w2 : InstanceWrapperState)
    (live : InstanceWrapperState) (name : String) :
    get_global_const_recreate m w1 name = get_global_const_recreate m w2 name ∧
    get_global_const_recreate m w1 name = get_global_val ⟨some m.globals_init⟩ name ∧
    get_global_const_fast_reuse live name = get_global_val live name ∧
    (∀ x : Int, m.globals_init name = some (.I32 x) →
      get_global_const_recreate m w1 name = .ok (some (.I32 x))) := by
  refine ⟨rfl, rfl, rfl, ?_⟩
  intro x hx
  simp only [get_global_const_recreate, instantiate, get_global_val, hx]

/-- Witness for C10: a module whose `__heap_base` starts at 1048576 and
whose live instance has mutated it to 0 still answers 1048576 through
the recreate strategy. -/
theorem c10_get_global_const_witness :
    get_global_const_recreate c10_module c10_mutated "__heap_base" =
      .ok (some (.I32 1048576)) :=
  (c10_get_global_const c10_module c10_mutated c10_mutated c10_mutated "__heap_base").2.2.2
    1048576 rfl

end SW
